import Mathlib

/-!
# Shallow embedding of the Bitcoin-Trading-Agent strategy core

This file embeds, in Lean 4, the decision core of the repository:

* `src/strategy/dca_strategy.py` — the `DCAStrategy` class
  (`should_buy`, `execute_buy`);
* `src/strategy/strategy_manager.py` — the `StrategyManager` class
  (`_check_portfolio_risk`, `evaluate_hybrid`, `record_swing_open`,
  `_load_active_trades`, `_save_active_trades`);
* `src/backtest/engine.py` — `BacktestEngine.run_backtest`.

Modelling conventions:

* Python floats are embedded as `ℚ` (all the code's arithmetic is +, −, ×, ÷
  and comparisons on finite decimal inputs).
* `datetime` values are embedded as `ℚ` measured in **hours**, so Python's
  `(now - last).total_seconds() / 3600` becomes `now - last`.
* The human-readable `reason` strings are embedded as an inductive type whose
  constructors are in bijection with the `return` sites in the source, carrying
  the numeric payloads that the source interpolates into the string.
* File I/O (`data/active_trades.json`, `data/portfolio.json`) is embedded by
  passing the observable content of the file as an explicit argument, and by
  returning the content that would be written.
* `str(uuid4())[:8]` (fresh trade id) is embedded as an explicit `freshId`
  argument, and the Telegram side effect of `evaluate_hybrid` as an explicit
  `Bool` in the result (`true` iff `send_message` is invoked; the notifier
  collaborator is modelled as succeeding).
-/

/-- Embeds the `reason` strings returned by `DCAStrategy.should_buy` and by the
risk-pause branch of `StrategyManager.evaluate_hybrid`.  Each constructor is one
`return` site of the source; payloads are the numbers interpolated into the
string. -/
inductive DCAReason where
  | noPreviousPrice : DCAReason
  | insufficientBudget : DCAReason
  | tooSoon (elapsedHours minIntervalHours : ℚ) : DCAReason
  | dropMeets (priceDrop threshold : ℚ) : DCAReason
  | dropBelow (priceDrop threshold : ℚ) : DCAReason
  | riskPause (ddPct threshold : ℚ) : DCAReason
  | riskPauseNoData : DCAReason
deriving DecidableEq, Repr

/-- Embeds the dict returned by `DCAStrategy.should_buy`: keys `should_buy`,
`reason`, and (present only on the buy branch) `price_drop` and `amount_usd`. -/
structure DCADecision where
  should_buy : Bool
  reason : DCAReason
  price_drop : Option ℚ
  amount_usd : Option ℚ
deriving DecidableEq, Repr

/-- Embeds one entry of `DCAStrategy.purchases` (the dict built in
`execute_buy`; its constant `"type": "DCA"` field is omitted). -/
structure Purchase where
  timestamp : ℚ
  price_usd : ℚ
  amount_usd : ℚ
  btc_amount : ℚ
deriving DecidableEq, Repr

/-- Embeds the mutable state of a `DCAStrategy` instance: the four constructor
parameters and the four tracking fields initialised in `__init__`. -/
structure DCAStrategy where
  budget_usd : ℚ
  dca_amount_usd : ℚ
  drop_percent : ℚ
  min_interval_hours : ℚ
  purchases : List Purchase
  last_purchase_time : Option ℚ
  total_spent : ℚ
  total_btc : ℚ
deriving DecidableEq, Repr

/-- Embeds `DCAStrategy.__init__(budget_usd, dca_amount_usd, drop_percent,
min_interval_hours)`: empty purchase list, no last purchase, zero totals. -/
def mkDCAStrategy (budget_usd dca_amount_usd drop_percent min_interval_hours : ℚ) :
    DCAStrategy :=
  ⟨budget_usd, dca_amount_usd, drop_percent, min_interval_hours, [], none, 0, 0⟩

/-- Embeds `DCAStrategy.should_buy(current_price, previous_price, current_time)`.
Branches in source order:
1. `previous_price <= 0` → no previous price data;
2. `total_spent + dca_amount_usd > budget_usd` → insufficient budget;
3. `if time_since_last and time_since_last < min_interval_hours` → too soon.
   Python's truthiness test `if time_since_last` is `False` both when
   `time_since_last is None` and when it equals `0.0`, hence the `e ≠ 0`
   conjunct;
4. `price_drop >= drop_percent` → buy;
5. otherwise → drop below threshold. -/
def DCAStrategy.should_buy (s : DCAStrategy)
    (current_price previous_price current_time : ℚ) : DCADecision :=
  if previous_price ≤ 0 then
    ⟨false, .noPreviousPrice, none, none⟩
  else
    let price_drop : ℚ := (previous_price - current_price) / previous_price * 100
    let time_since_last : Option ℚ :=
      s.last_purchase_time.map (fun t => current_time - t)
    if s.total_spent + s.dca_amount_usd > s.budget_usd then
      ⟨false, .insufficientBudget, none, none⟩
    else if (match time_since_last with
             | none => false
             | some e => decide (e ≠ 0) && decide (e < s.min_interval_hours)) then
      ⟨false, .tooSoon ((time_since_last).getD 0) s.min_interval_hours, none, none⟩
    else if s.drop_percent ≤ price_drop then
      ⟨true, .dropMeets price_drop s.drop_percent, some price_drop,
        some s.dca_amount_usd⟩
    else
      ⟨false, .dropBelow price_drop s.drop_percent, none, none⟩

/-- Embeds `DCAStrategy.execute_buy(price_usd, amount_usd, timestamp)`: appends
the purchase record and advances `last_purchase_time`, `total_spent`,
`total_btc`. -/
def DCAStrategy.execute_buy (s : DCAStrategy)
    (price_usd amount_usd timestamp : ℚ) : DCAStrategy :=
  let btc_amount := amount_usd / price_usd
  { s with
    purchases := s.purchases ++ [⟨timestamp, price_usd, amount_usd, btc_amount⟩],
    last_purchase_time := some timestamp,
    total_spent := s.total_spent + amount_usd,
    total_btc := s.total_btc + btc_amount }

/-- Embeds the externally-supplied tuning overrides read by
`StrategyManager.evaluate_hybrid`: `overrides.get("enable_swing", False)` and
`overrides.get("atr_k_stop", 1.5)` (`none` = key absent). -/
structure Overrides where
  enable_swing : Bool
  atr_k_stop : Option ℚ
deriving DecidableEq, Repr

/-- Embeds the parsed content of `data/portfolio.json` as read by
`StrategyManager._check_portfolio_risk`.  The `.get` defaults applied while
parsing (`initial_cash` → the DCA budget, `cash_usd` → 0, `btc` → 0) are part
of the parse and are assumed already resolved into these fields. -/
structure Portfolio where
  initial_cash : ℚ
  cash_usd : ℚ
  btc : ℚ
deriving DecidableEq, Repr

/-- Embeds the risk message half of `StrategyManager._check_portfolio_risk`'s
result: either "No portfolio data", "Risk check error: …", or the formatted
drawdown/threshold message (used on both the paused and unpaused branches). -/
inductive RiskMsg where
  | noPortfolioData : RiskMsg
  | riskCheckError : RiskMsg
  | drawdownMsg (ddPct threshold : ℚ) : RiskMsg
deriving DecidableEq, Repr

/-- Embeds `StrategyManager._check_portfolio_risk(current_price)`.
`port = none` is the missing-file branch.  When `initial_cash = 0` the Python
division raises `ZeroDivisionError`, caught by the blanket `except` which
returns `(False, "Risk check error: …")`; that is the `riskCheckError` branch.
Otherwise `drawdown_pct = (initial_cash − (cash + btc·price)) / initial_cash ·
100` and the pause flag is `drawdown_pct > max_drawdown_pct` (strict). -/
def checkPortfolioRisk (max_drawdown_pct : ℚ) (port : Option Portfolio)
    (current_price : ℚ) : Bool × RiskMsg :=
  match port with
  | none => (false, .noPortfolioData)
  | some p =>
    if p.initial_cash = 0 then
      (false, .riskCheckError)
    else
      let current_value := p.cash_usd + p.btc * current_price
      let drawdown_pct := (p.initial_cash - current_value) / p.initial_cash * 100
      if max_drawdown_pct < drawdown_pct then
        (true, .drawdownMsg drawdown_pct max_drawdown_pct)
      else
        (false, .drawdownMsg drawdown_pct max_drawdown_pct)

/-- Embeds one entry of the `data/active_trades.json` list (the swing-trade
dict built in `evaluate_hybrid` / persisted by `record_swing_open`).  All
fields of the source dict are present; `entry_time` is in hours like every
other time. -/
structure Trade where
  trade_id : String
  entry_price : ℚ
  stop_loss : ℚ
  amount_usd : ℚ
  btc_amount : ℚ
  atr_value : ℚ
  atr_k : ℚ
  entry_time : ℚ
  status : String
  trade_type : String
deriving DecidableEq, Repr

/-- Embeds the mutable state of a `StrategyManager` instance: the inner
`DCAStrategy`, `_last_close_price`, `max_drawdown_pct`, `_risk_alert_sent` and
`trading_mode`.  The active-trades file path is not state; the file's content
is passed to each operation explicitly. -/
structure StrategyManager where
  dca : DCAStrategy
  last_close_price : Option ℚ
  max_drawdown_pct : ℚ
  risk_alert_sent : Bool
  trading_mode : String
deriving DecidableEq, Repr

/-- Embeds `StrategyManager.__init__` (with `trading_mode` already
lower-cased, as `__init__` does). -/
def mkStrategyManager (budget_usd dca_amount_usd dca_drop_percent
    min_interval_hours max_drawdown_pct : ℚ) (trading_mode : String) :
    StrategyManager :=
  ⟨mkDCAStrategy budget_usd dca_amount_usd dca_drop_percent min_interval_hours,
    none, max_drawdown_pct, false, trading_mode⟩

/-- Embeds the dict returned by `StrategyManager.evaluate_hybrid`. -/
structure HybridResult where
  dca : DCADecision
  swing_open : Option Trade
  swing_closures : List Trade
  risk_pause : Bool
  risk_message : RiskMsg
deriving DecidableEq, Repr

/-- The `reason` string of the paused branch, `f"Risk pause: {risk_message}"`,
as a `DCAReason`. -/
def riskPauseReason (msg : RiskMsg) : DCAReason :=
  match msg with
  | .drawdownMsg dd th => .riskPause dd th
  | _ => .riskPauseNoData

/-- Embeds the early-return taken by `evaluate_hybrid` when `risk_pause` is
true: the fixed result dict, the state with `_risk_alert_sent = True`, and the
alert side-effect flag (`send_message` runs iff the flag was not yet set; the
notifier is modelled as succeeding, after which the source sets the flag). -/
def StrategyManager.pausedReturn (m : StrategyManager) (msg : RiskMsg) :
    HybridResult × StrategyManager × Bool :=
  (⟨⟨false, riskPauseReason msg, none, none⟩, none, [], true, msg⟩,
    { m with risk_alert_sent := true },
    !m.risk_alert_sent)

/-- Embeds `StrategyManager.evaluate_hybrid(current_price, atr_value, now,
overrides, swing_amount_usd)`.

Explicit-state extras: `active` is what `_load_active_trades()` returns on this
tick, `port` is what `_check_portfolio_risk` reads from `data/portfolio.json`,
`freshId` stands for `str(uuid4())[:8]`.  The result triple is (returned dict,
state after the call, whether the Telegram alert side-effect ran).

Faithful points: on the paused branch the function returns *before* the
`self._last_close_price = current_price` update; `swing_amount_usd or
self.dca.dca_amount_usd` is Python `or`, so both `None` and `0` fall back to
the DCA amount; the swing guard `atr_value and float(atr_value) > 0` is
equivalent to `0 < atr_value`; `btc_amount` is 0 when `current_price ≤ 0`.
The "Consider opening a swing" block of the method is the separate definition
`proposeSwingOpen` below. -/
def proposeSwingOpen (m : StrategyManager) (current_price atr_value now : ℚ)
    (overrides : Overrides) (swing_amount_usd : Option ℚ) (active : List Trade)
    (freshId : String) : Option Trade :=
  if m.trading_mode == "hybrid" then
    let atr_k := overrides.atr_k_stop.getD (3 / 2)
    if overrides.enable_swing && decide (0 < atr_value)
        && !(active.any (fun t => t.status == "open")) then
      let amount_usd :=
        match swing_amount_usd with
        | none => m.dca.dca_amount_usd
        | some v => if v = 0 then m.dca.dca_amount_usd else v
      let btc_amount := if 0 < current_price then amount_usd / current_price else 0
      some ⟨freshId, current_price, current_price - atr_k * atr_value,
        amount_usd, btc_amount, atr_value, atr_k, now, "pending", "swing"⟩
    else none
  else none

/-- The body of `evaluate_hybrid`; see the doc comment on `proposeSwingOpen`
above for the conventions of the whole method. -/
def StrategyManager.evaluate_hybrid (m : StrategyManager)
    (current_price atr_value now : ℚ) (overrides : Overrides)
    (swing_amount_usd : Option ℚ) (active : List Trade)
    (port : Option Portfolio) (freshId : String) :
    HybridResult × StrategyManager × Bool :=
  let previous_price := m.last_close_price.getD current_price
  let rc := checkPortfolioRisk m.max_drawdown_pct port current_price
  if rc.1 then
    m.pausedReturn rc.2
  else
    let dca_decision := m.dca.should_buy current_price previous_price now
    let m2 := { m with risk_alert_sent := false,
                       last_close_price := some current_price }
    let swing_closures := active.filter
      (fun tr => tr.status == "open" && decide (current_price ≤ tr.stop_loss))
    let swing_open := proposeSwingOpen m current_price atr_value now overrides
      swing_amount_usd active freshId
    (⟨dca_decision, swing_open, swing_closures, false, rc.2⟩, m2, false)

/-- Embeds the observable content of the `data/active_trades.json` file as seen
by `StrategyManager._load_active_trades`: the file may be absent, unreadable or
unparsable (any `Exception` while opening/parsing), parse to JSON `null` (the
`or []` guard), or parse to a list of trades. -/
inductive ActiveTradesFile where
  | missing : ActiveTradesFile
  | readFailure : ActiveTradesFile
  | parsedNull : ActiveTradesFile
  | parsed (trades : List Trade) : ActiveTradesFile
deriving DecidableEq, Repr

/-- Embeds `StrategyManager._load_active_trades`: missing file → `[]`;
`try … except Exception: return []` around open/parse → `[]`; `json.load(f) or
[]` maps JSON `null` to `[]`; otherwise the parsed list. -/
def loadActiveTrades (file : ActiveTradesFile) : List Trade :=
  match file with
  | .missing => []
  | .readFailure => []
  | .parsedNull => []
  | .parsed trades => trades

/-- The outcome of the file write attempted by
`StrategyManager._save_active_trades` (the host filesystem may fail it). -/
inductive WriteOutcome where
  | ok : WriteOutcome
  | ioFailure (msg : String) : WriteOutcome
deriving DecidableEq, Repr

/-- Embeds `StrategyManager._save_active_trades(trades)`: the body has no
`try`/`except`, so a failing write raises out of the method (`Except.error`);
a successful write persists exactly `trades`. -/
def saveActiveTrades (trades : List Trade) (w : WriteOutcome) :
    Except String (List Trade) :=
  match w with
  | .ok => .ok trades
  | .ioFailure msg => .error msg

/-- Embeds `StrategyManager.record_swing_open(trade)`: load the active set,
copy the trade, overwrite its `status` with `"open"`, append, save.  `file` is
the file content at the load and `w` the outcome of the save; the result is
the persisted list (or the propagated write error). -/
def recordSwingOpen (file : ActiveTradesFile) (trade : Trade)
    (w : WriteOutcome) : Except String (List Trade) :=
  saveActiveTrades (loadActiveTrades file ++ [{ trade with status := "open" }]) w

/-- Embeds `StrategyManager.record_swing_close(trade_id)`: keep every stored
trade whose `trade_id` differs, then save. -/
def recordSwingClose (file : ActiveTradesFile) (trade_id : String)
    (w : WriteOutcome) : Except String (List Trade) :=
  saveActiveTrades ((loadActiveTrades file).filter
    (fun t => t.trade_id != trade_id)) w

/-- The per-tick inputs of one `evaluate_hybrid` call, bundled so that call
sequences can be expressed as lists.  `active` and `port` are the contents of
the two external JSON files at that tick, `freshId` the uuid drawn. -/
structure TickInput where
  price : ℚ
  atr : ℚ
  now : ℚ
  overrides : Overrides
  swing_amount_usd : Option ℚ
  active : List Trade
  port : Option Portfolio
  freshId : String
deriving DecidableEq, Repr

/-- Runs `evaluate_hybrid` over a list of tick inputs and returns the list of
per-tick alert side-effect flags (whether `send_message` ran on that tick). -/
def runAlerts : StrategyManager → List TickInput → List Bool
  | _, [] => []
  | m, t :: ts =>
    let r := m.evaluate_hybrid t.price t.atr t.now t.overrides
      t.swing_amount_usd t.active t.port t.freshId
    r.2.2 :: runAlerts r.2.1 ts

/-- Whether the risk breaker pauses a given tick, as a function of the
manager's configuration and the tick's inputs (the first component of
`_check_portfolio_risk`). -/
def pausedFor (m : StrategyManager) (t : TickInput) : Bool :=
  (checkPortfolioRisk m.max_drawdown_pct t.port t.price).1

/-- Modelled from the spec: the alert pattern the spec requires — an alert
fires exactly on the first tick of each maximal run of paused ticks, given the
alert-sent flag that was in force before the first tick. -/
def episodeStarts : Bool → List Bool → List Bool
  | _, [] => []
  | prev, b :: bs => (b && !prev) :: episodeStarts b bs

/-- One tick of the DCA buy loop that claim C1 quantifies over: consult
`should_buy`; exactly when it answers `true`, call `execute_buy` with the
strategy's own per-buy amount (`dca_amount_usd`, also the decision's
`amount_usd` payload) at that tick's price and time. -/
def dcaTick (s : DCAStrategy) (t : ℚ × ℚ × ℚ) : DCAStrategy :=
  let d := s.should_buy t.1 t.2.1 t.2.2
  if d.should_buy then s.execute_buy t.1 s.dca_amount_usd t.2.2 else s

/-- Embeds one entry of `BacktestEngine.trades` (`kind` ∈ DCA, SWING, STOP;
`stop_loss` is present only on SWING entries). -/
structure BTrade where
  time : ℚ
  kind : String
  price : ℚ
  amount_usd : ℚ
  btc_amount : ℚ
  stop_loss : Option ℚ
deriving DecidableEq, Repr

/-- Embeds one historical bar consumed by `BacktestEngine.run_backtest`,
together with the external file contents its `evaluate_hybrid` call observes
(the backtest reads the live `data/active_trades.json` and
`data/portfolio.json` each tick and never writes them). -/
structure Bar where
  close : ℚ
  atr : ℚ
  time : ℚ
  active : List Trade
  port : Option Portfolio
  freshId : String
deriving DecidableEq, Repr

/-- Embeds the `dca_config` dict passed to `run_backtest`, with the `.get`
defaults (500, 3.0, 24) already resolved. -/
structure DcaConfig where
  dca_amount_usd : ℚ
  dca_drop_percent : ℚ
  min_interval_hours : ℚ
deriving DecidableEq, Repr

/-- The in-flight state of the `run_backtest` loop: the cash/btc ledger, the
trade log, the strategy manager, and the recorded drawdown series (the
`drawdown_pct` field of `portfolio_history`). -/
structure BTState where
  cash : ℚ
  btc : ℚ
  trades : List BTrade
  manager : StrategyManager
  ddHistory : List ℚ
deriving DecidableEq, Repr

/-- Embeds the `for tr in hybrid.get("swing_closures", [])` loop of
`BacktestEngine.run_backtest`: for every matched stop, if the ledger holds
enough btc, sell it at the bar's price and log a STOP trade. -/
def execClosures (time price : ℚ) (closures : List Trade) (st : BTState) :
    BTState :=
  closures.foldl
    (fun acc tr =>
      if 0 < tr.btc_amount ∧ tr.btc_amount ≤ acc.btc then
        ⟨acc.cash + tr.btc_amount * price, acc.btc - tr.btc_amount,
          acc.trades ++ [⟨time, "STOP", price, tr.btc_amount * price,
            tr.btc_amount, none⟩],
          acc.manager, acc.ddHistory⟩
      else acc)
    st

/-- Embeds one iteration of the `for i, row in historical_data.iterrows()`
loop of `BacktestEngine.run_backtest`: evaluate the hybrid decision, record
the drawdown point, then in order execute the DCA fill (if not paused, the
decision fired, and cash suffices), the swing fill (hybrid mode only), and
every stop closure the ledger can cover. -/
def btStep (initial_budget : ℚ) (trading_mode : String) (overrides : Overrides)
    (cfg : DcaConfig) (st : BTState) (bar : Bar) : BTState :=
  let price := bar.close
  let r := st.manager.evaluate_hybrid price bar.atr bar.time overrides
    (some cfg.dca_amount_usd) bar.active bar.port bar.freshId
  let hybrid := r.1
  let m := r.2.1
  let portfolio_value := st.cash + st.btc * price
  let drawdown_pct := (initial_budget - portfolio_value) / initial_budget * 100
  let st0 : BTState := ⟨st.cash, st.btc, st.trades, m, st.ddHistory ++ [drawdown_pct]⟩
  let st1 : BTState :=
    if !hybrid.risk_pause && hybrid.dca.should_buy then
      let amount := hybrid.dca.amount_usd.getD 0
      if amount ≤ st0.cash then
        ⟨st0.cash - amount, st0.btc + amount / price,
          st0.trades ++ [⟨bar.time, "DCA", price, amount, amount / price, none⟩],
          st0.manager, st0.ddHistory⟩
      else st0
    else st0
  let st2 : BTState :=
    if trading_mode == "hybrid" && !hybrid.risk_pause then
      match hybrid.swing_open with
      | some tr =>
        if tr.amount_usd ≤ st1.cash then
          ⟨st1.cash - tr.amount_usd, st1.btc + tr.amount_usd / price,
            st1.trades ++ [⟨bar.time, "SWING", price, tr.amount_usd,
              tr.amount_usd / price, some tr.stop_loss⟩],
            st1.manager, st1.ddHistory⟩
        else st1
      | none => st1
    else st1
  execClosures bar.time price hybrid.swing_closures st2

/-- Embeds the summary dict returned by `run_backtest` on non-empty input. -/
structure BTResult where
  initial_budget : ℚ
  final_value : ℚ
  total_return_pct : ℚ
  total_trades : ℕ
  dca_trades : ℕ
  swing_trades : ℕ
  stop_trades : ℕ
  final_cash : ℚ
  final_btc : ℚ
  max_drawdown : ℚ
  trading_mode : String
deriving DecidableEq, Repr

/-- Embeds Python's `max(...)` over the nonempty drawdown list (`run_backtest`
guards the empty case and uses 0 there). -/
def listMax : List ℚ → ℚ
  | [] => 0
  | x :: xs => xs.foldl max x

/-- Embeds `BacktestEngine.run_backtest(historical_data, dca_config,
overrides)` for an engine constructed with `BacktestEngine.__init__`
(fresh `trades`/`portfolio_history` lists).  Empty input returns the
`{"error": …}` dict, embedded as `none`. -/
def runBacktest (initial_budget max_drawdown_pct : ℚ) (trading_mode : String)
    (bars : List Bar) (cfg : DcaConfig) (overrides : Overrides) :
    Option BTResult :=
  match bars with
  | [] => none
  | _ =>
    let manager := mkStrategyManager initial_budget cfg.dca_amount_usd
      cfg.dca_drop_percent cfg.min_interval_hours max_drawdown_pct trading_mode
    let final := bars.foldl (btStep initial_budget trading_mode overrides cfg)
      ⟨initial_budget, 0, [], manager, []⟩
    let final_price := (bars.map Bar.close).getLastD 0
    let final_value := final.cash + final.btc * final_price
    let total_return := (final_value - initial_budget) / initial_budget * 100
    some ⟨initial_budget, final_value, total_return,
      final.trades.length,
      (final.trades.filter (fun t => t.kind == "DCA")).length,
      (final.trades.filter (fun t => t.kind == "SWING")).length,
      (final.trades.filter (fun t => t.kind == "STOP")).length,
      final.cash, final.btc,
      listMax final.ddHistory,
      trading_mode⟩

/-! ## Supporting lemmas -/

/-- A buy decision passes the budget gate: if `should_buy` answers `true`,
then spending one more `dca_amount_usd` stays within budget. -/
lemma should_buy_true_budget {s : DCAStrategy} {cur prev t : ℚ}
    (h : (s.should_buy cur prev t).should_buy = true) :
    s.total_spent + s.dca_amount_usd ≤ s.budget_usd := by
  by_contra hover
  push_neg at hover
  unfold DCAStrategy.should_buy at h
  by_cases hp : prev ≤ 0
  · simp [hp] at h
  · simp [hp, hover] at h

/-- `execute_buy` changes neither the budget nor the per-buy amount, and adds
exactly the spent amount to `total_spent`. -/
lemma execute_buy_fields (s : DCAStrategy) (p a t : ℚ) :
    (s.execute_buy p a t).budget_usd = s.budget_usd ∧
    (s.execute_buy p a t).dca_amount_usd = s.dca_amount_usd ∧
    (s.execute_buy p a t).total_spent = s.total_spent + a :=
  ⟨rfl, rfl, rfl⟩

/-- One guarded DCA tick keeps `total_spent ≤ budget_usd` and preserves the
budget. -/
lemma dcaTick_invariant {s : DCAStrategy} (t : ℚ × ℚ × ℚ)
    (h : s.total_spent ≤ s.budget_usd) :
    (dcaTick s t).total_spent ≤ (dcaTick s t).budget_usd ∧
    (dcaTick s t).budget_usd = s.budget_usd := by
  simp only [dcaTick]
  by_cases hb : (s.should_buy t.1 t.2.1 t.2.2).should_buy = true
  · rw [if_pos hb]
    exact ⟨by simpa [DCAStrategy.execute_buy] using should_buy_true_budget hb, rfl⟩
  · rw [if_neg hb]
    exact ⟨h, rfl⟩

/-- Folding guarded DCA ticks keeps `total_spent ≤ budget_usd`. -/
lemma foldl_dcaTick_le (ticks : List (ℚ × ℚ × ℚ)) :
    ∀ s : DCAStrategy, s.total_spent ≤ s.budget_usd →
      (ticks.foldl dcaTick s).total_spent ≤ (ticks.foldl dcaTick s).budget_usd := by
  induction ticks with
  | nil => intro s h; simpa using h
  | cons t ts ih =>
    intro s h
    simp only [List.foldl_cons]
    exact ih _ (dcaTick_invariant t h).1

/-- Folding guarded DCA ticks never changes the budget. -/
lemma foldl_dcaTick_budget (ticks : List (ℚ × ℚ × ℚ)) :
    ∀ s : DCAStrategy, (ticks.foldl dcaTick s).budget_usd = s.budget_usd := by
  induction ticks with
  | nil => intro s; rfl
  | cons t ts ih =>
    intro s
    simp only [List.foldl_cons]
    rw [ih]
    by_cases hb : (s.should_buy t.1 t.2.1 t.2.2).should_buy = true <;>
      simp [dcaTick, hb, DCAStrategy.execute_buy]

/-! ## Claims -/

/-- C1 counterexample.  The claim says `should_buy` reports reason
"Insufficient budget" *whenever* `total_spent + a > B`; but the
`previous_price ≤ 0` check runs first, so on a strategy with budget 100 and
per-buy amount 500 (so `0 + 500 > 100`), a call with `previous_price = 0`
answers with reason "No previous price data" instead. -/
theorem budget_reason_counterexample :
    (mkDCAStrategy 100 500 3 24).budget_usd <
      (mkDCAStrategy 100 500 3 24).total_spent +
        (mkDCAStrategy 100 500 3 24).dca_amount_usd ∧
    ((mkDCAStrategy 100 500 3 24).should_buy 96 0 0).reason =
      DCAReason.noPreviousPrice ∧
    DCAReason.noPreviousPrice ≠ DCAReason.insufficientBudget := by
  refine ⟨by norm_num [mkDCAStrategy], ?_, by simp⟩
  simp [mkDCAStrategy, DCAStrategy.should_buy]

/-- C1 (amended): starting from a fresh strategy with nonnegative budget `B`,
any sequence of guarded ticks (a buy executes exactly when `should_buy`
answered `true`, spending `dca_amount_usd`) keeps `total_spent ≤ B`; and
whenever `total_spent + dca_amount_usd > budget_usd`, `should_buy` answers
`false` — with reason "Insufficient budget" provided `previous_price > 0`
(when `previous_price ≤ 0`, the "No previous price data" reason takes
precedence). -/
theorem dca_budget_conservation (B a dp mi : ℚ) (hB : 0 ≤ B) :
    (∀ ticks : List (ℚ × ℚ × ℚ),
      (ticks.foldl dcaTick (mkDCAStrategy B a dp mi)).total_spent ≤ B) ∧
    (∀ (s : DCAStrategy) (cur prev t : ℚ),
      s.budget_usd < s.total_spent + s.dca_amount_usd →
      (s.should_buy cur prev t).should_buy = false ∧
      (0 < prev →
        (s.should_buy cur prev t).reason = DCAReason.insufficientBudget)) := by
  constructor
  · intro ticks
    have h := foldl_dcaTick_le ticks (mkDCAStrategy B a dp mi)
      (by simpa [mkDCAStrategy] using hB)
    rw [foldl_dcaTick_budget ticks] at h
    simpa [mkDCAStrategy] using h
  · intro s cur prev t hover
    unfold DCAStrategy.should_buy
    by_cases hp : prev ≤ 0
    · exact ⟨by simp [hp], fun hpos => absurd hpos (by simpa using hp)⟩
    · have : s.total_spent + s.dca_amount_usd > s.budget_usd := hover
      refine ⟨?_, fun _ => ?_⟩ <;> simp [hp, this]

/-- C3: evaluation of the code at the failing input.  On a strategy with a
24-hour minimum interval, after a buy executed at time 40h, a second
`should_buy` call at the *same* time 40h (elapsed 0h, which is strictly less
than 24h) with a 4% price drop answers `should_buy = true`: Python's
`if time_since_last and …` treats the elapsed value `0.0` as unset and skips
the interval check, contradicting the minimum-spacing rule. -/
theorem min_spacing_zero_elapsed_bug :
    (((mkDCAStrategy 10000 500 3 24).execute_buy 100 500 40).should_buy
        96 100 40).should_buy = true ∧
    ((40 : ℚ) - 40 = 0 ∧ (0 : ℚ) < 24) := by
  refine ⟨?_, by norm_num, by norm_num⟩
  simp [mkDCAStrategy, DCAStrategy.execute_buy, DCAStrategy.should_buy]
  norm_num

/-- The components of `evaluate_hybrid` that drive the alert protocol: the
alert side-effect fires iff this tick pauses and the flag was clear; the flag
after the call equals this tick's pause bit; the drawdown threshold is
untouched. -/
lemma evaluate_hybrid_alert_facts (m : StrategyManager)
    (price atr now : ℚ) (ov : Overrides) (amt : Option ℚ)
    (active : List Trade) (port : Option Portfolio) (id : String) :
    (m.evaluate_hybrid price atr now ov amt active port id).2.2
        = ((checkPortfolioRisk m.max_drawdown_pct port price).1
            && !m.risk_alert_sent) ∧
    (m.evaluate_hybrid price atr now ov amt active port id).2.1.risk_alert_sent
        = (checkPortfolioRisk m.max_drawdown_pct port price).1 ∧
    (m.evaluate_hybrid price atr now ov amt active port id).2.1.max_drawdown_pct
        = m.max_drawdown_pct := by
  simp only [StrategyManager.evaluate_hybrid]
  by_cases hp : (checkPortfolioRisk m.max_drawdown_pct port price).1 = true
  · simp [hp, StrategyManager.pausedReturn]
  · have hp' : (checkPortfolioRisk m.max_drawdown_pct port price).1 = false := by
      simpa using hp
    simp [hp']

/-- C4: over any tick sequence, the Telegram risk-alert side-effect fires
exactly on the first tick of each maximal run of risk-paused ticks (pause =
`_check_portfolio_risk` reporting drawdown strictly above threshold), given
the alert-sent flag in force at the start; on a fresh manager the flag is
clear, so each breach episode alerts exactly once, consecutive paused ticks
never re-alert, and any unpaused tick resets the flag. -/
theorem risk_alert_once_per_episode (m : StrategyManager)
    (ticks : List TickInput) :
    runAlerts m ticks
      = episodeStarts m.risk_alert_sent (ticks.map (pausedFor m)) := by
  induction ticks generalizing m with
  | nil => rfl
  | cons t ts ih =>
    obtain ⟨h1, h2, h3⟩ := evaluate_hybrid_alert_facts m t.price t.atr t.now
      t.overrides t.swing_amount_usd t.active t.port t.freshId
    simp only [runAlerts, List.map_cons, episodeStarts]
    rw [h1, ih]
    have hfun : pausedFor
        ((m.evaluate_hybrid t.price t.atr t.now t.overrides t.swing_amount_usd
          t.active t.port t.freshId).2.1) = pausedFor m := by
      funext u
      simp [pausedFor, h3]
    rw [h2, hfun]
    rfl

/-- C1 witness: the amended theorem applied with budget 10000, amount 500,
3% drop, 24h interval, at a one-tick sequence and at a concrete overspent
strategy. -/
theorem dca_budget_conservation_witness :
    (([((96 : ℚ), 100, 25)]).foldl dcaTick
        (mkDCAStrategy 10000 500 3 24)).total_spent ≤ 10000 ∧
    (((mkDCAStrategy 100 500 3 24).should_buy 96 100 0).should_buy = false ∧
      (0 < (100 : ℚ) →
        ((mkDCAStrategy 100 500 3 24).should_buy 96 100 0).reason =
          DCAReason.insufficientBudget)) := by
  refine ⟨(dca_budget_conservation 10000 500 3 24 (by norm_num)).1 _, ?_⟩
  exact (dca_budget_conservation 100 500 3 24 (by norm_num)).2
    (mkDCAStrategy 100 500 3 24) 96 100 0 (by norm_num [mkDCAStrategy])

/-- When `_check_portfolio_risk` pauses, `evaluate_hybrid` is its early-return
branch. -/
lemma evaluate_hybrid_paused_eq (m : StrategyManager)
    (price atr now : ℚ) (ov : Overrides) (amt : Option ℚ)
    (active : List Trade) (port : Option Portfolio) (id : String)
    (hp : (checkPortfolioRisk m.max_drawdown_pct port price).1 = true) :
    m.evaluate_hybrid price atr now ov amt active port id
      = m.pausedReturn (checkPortfolioRisk m.max_drawdown_pct port price).2 := by
  simp only [StrategyManager.evaluate_hybrid]
  rw [if_pos hp]

/-- When `_check_portfolio_risk` does not pause, `evaluate_hybrid` is its main
branch, spelled out. -/
lemma evaluate_hybrid_unpaused_eq (m : StrategyManager)
    (price atr now : ℚ) (ov : Overrides) (amt : Option ℚ)
    (active : List Trade) (port : Option Portfolio) (id : String)
    (hp : (checkPortfolioRisk m.max_drawdown_pct port price).1 = false) :
    m.evaluate_hybrid price atr now ov amt active port id
      = (⟨m.dca.should_buy price (m.last_close_price.getD price) now,
          proposeSwingOpen m price atr now ov amt active id,
          active.filter
            (fun tr => tr.status == "open" && decide (price ≤ tr.stop_loss)),
          false, (checkPortfolioRisk m.max_drawdown_pct port price).2⟩,
        { m with risk_alert_sent := false, last_close_price := some price },
        false) := by
  simp only [StrategyManager.evaluate_hybrid]
  rw [if_neg (by simp [hp])]

/-- The `risk_pause` field of the result is exactly the pause bit of
`_check_portfolio_risk`. -/
lemma evaluate_hybrid_risk_pause (m : StrategyManager)
    (price atr now : ℚ) (ov : Overrides) (amt : Option ℚ)
    (active : List Trade) (port : Option Portfolio) (id : String) :
    (m.evaluate_hybrid price atr now ov amt active port id).1.risk_pause
      = (checkPortfolioRisk m.max_drawdown_pct port price).1 := by
  by_cases hp : (checkPortfolioRisk m.max_drawdown_pct port price).1 = true
  · rw [evaluate_hybrid_paused_eq m price atr now ov amt active port id hp, hp]
    rfl
  · have hp' : (checkPortfolioRisk m.max_drawdown_pct port price).1 = false := by
      simpa using hp
    rw [evaluate_hybrid_unpaused_eq m price atr now ov amt active port id hp', hp']

/-- An open swing trade with entry 1000 and stop 925 (ATR 50, k = 1.5), as in
the spec's scenario 3. -/
def openTrade925 : Trade :=
  ⟨"t1", 1000, 925, 500, 1 / 2, 50, 3 / 2, 0, "open", "swing"⟩

/-- A portfolio snapshot whose value is 0 at every price (initial cash 10000,
no cash, no btc): drawdown 100%, far above any reasonable threshold. -/
def bustPortfolio : Portfolio := ⟨10000, 0, 0⟩

/-- The drawdown of `bustPortfolio` at price 900 pauses a manager whose
threshold is 25%. -/
lemma bust_paused (price : ℚ) :
    (checkPortfolioRisk 25 (some bustPortfolio) price).1 = true := by
  simp [checkPortfolioRisk, bustPortfolio]
  norm_num

/-- C2 counterexample.  On a risk-paused tick (drawdown 100% > 25%), with the
active set holding an *open* trade whose stop 925 is at or above the current
price 900, the returned `swing_closures` is the empty list — it does not
contain that trade, because the paused early-return skips stop-loss
evaluation entirely. -/
theorem paused_closures_counterexample :
    ((mkStrategyManager 10000 500 3 24 25 "hybrid").evaluate_hybrid 900 50 0
        ⟨false, none⟩ none [openTrade925] (some bustPortfolio) "id").1.risk_pause
      = true ∧
    openTrade925.status = "open" ∧
    (900 : ℚ) ≤ openTrade925.stop_loss ∧
    ((mkStrategyManager 10000 500 3 24 25 "hybrid").evaluate_hybrid 900 50 0
        ⟨false, none⟩ none [openTrade925] (some bustPortfolio) "id").1.swing_closures
      = [] := by
  have hp : (checkPortfolioRisk
      (mkStrategyManager 10000 500 3 24 25 "hybrid").max_drawdown_pct
      (some bustPortfolio) 900).1 = true := bust_paused 900
  rw [evaluate_hybrid_paused_eq _ 900 50 0 ⟨false, none⟩ none [openTrade925]
    (some bustPortfolio) "id" hp]
  refine ⟨rfl, rfl, by norm_num [openTrade925], rfl⟩

/-- C2 (amended): on every tick for which `evaluate_hybrid` returns
`risk_pause = true`, the returned `swing_closures` list is empty (and
`swing_open` is `none` and the DCA decision is a hold): stop-loss closure
evaluation, like everything else, is suppressed while risk-paused; closures
are computed only on non-paused ticks. -/
theorem paused_tick_suppresses (m : StrategyManager)
    (price atr now : ℚ) (ov : Overrides) (amt : Option ℚ)
    (active : List Trade) (port : Option Portfolio) (id : String)
    (h : (m.evaluate_hybrid price atr now ov amt active port id).1.risk_pause
      = true) :
    (m.evaluate_hybrid price atr now ov amt active port id).1.swing_closures
        = [] ∧
    (m.evaluate_hybrid price atr now ov amt active port id).1.swing_open
        = none ∧
    (m.evaluate_hybrid price atr now ov amt active port id).1.dca.should_buy
        = false := by
  have hp : (checkPortfolioRisk m.max_drawdown_pct port price).1 = true := by
    rw [← evaluate_hybrid_risk_pause m price atr now ov amt active port id]
    exact h
  rw [evaluate_hybrid_paused_eq m price atr now ov amt active port id hp]
  exact ⟨rfl, rfl, rfl⟩

/-- C2 witness: the amended theorem applied on the risk-paused scenario with
an open trade past its stop in the active set. -/
theorem paused_tick_suppresses_witness :
    ((mkStrategyManager 10000 500 3 24 25 "hybrid").evaluate_hybrid 900 50 0
        ⟨false, none⟩ none [openTrade925] (some bustPortfolio) "id").1.swing_closures
        = [] ∧
    ((mkStrategyManager 10000 500 3 24 25 "hybrid").evaluate_hybrid 900 50 0
        ⟨false, none⟩ none [openTrade925] (some bustPortfolio) "id").1.swing_open
        = none ∧
    ((mkStrategyManager 10000 500 3 24 25 "hybrid").evaluate_hybrid 900 50 0
        ⟨false, none⟩ none [openTrade925] (some bustPortfolio) "id").1.dca.should_buy
        = false :=
  paused_tick_suppresses (mkStrategyManager 10000 500 3 24 25 "hybrid")
    900 50 0 ⟨false, none⟩ none [openTrade925] (some bustPortfolio) "id"
    (by rw [evaluate_hybrid_paused_eq _ 900 50 0 ⟨false, none⟩ none
        [openTrade925] (some bustPortfolio) "id" (bust_paused 900)]
        rfl)

/-- A manager (budget 10000, DCA 500, drop 3%, interval 24h, threshold 25%,
hybrid mode) that has already observed a close price of 100. -/
def m100 : StrategyManager :=
  { mkStrategyManager 10000 500 3 24 25 "hybrid" with
    last_close_price := some 100 }

/-- C6 counterexample.  On a risk-paused tick at price 96, the engine does
*not* update its previous-price tracking: `_last_close_price` stays at the
prior value 100 instead of the price just evaluated (the paused branch
returns before the `self._last_close_price = current_price` line). -/
theorem paused_price_tracking_counterexample :
    (m100.evaluate_hybrid 96 0 0 ⟨false, none⟩ none []
        (some bustPortfolio) "id").1.risk_pause = true ∧
    (m100.evaluate_hybrid 96 0 0 ⟨false, none⟩ none []
        (some bustPortfolio) "id").2.1.last_close_price = some 100 ∧
    some (100 : ℚ) ≠ some (96 : ℚ) := by
  rw [evaluate_hybrid_paused_eq m100 96 0 0 ⟨false, none⟩ none []
    (some bustPortfolio) "id" (bust_paused 96)]
  refine ⟨rfl, rfl, by norm_num⟩

/-- C6 (amended): on every tick for which `evaluate_hybrid` returns
`risk_pause = true`, the engine state after the call is exactly the state
before it with `_risk_alert_sent` set to `true`: in particular
`_last_close_price` is *not* advanced to the evaluated price (the paused
early-return precedes the previous-price bookkeeping), and the DCA substate
is untouched. -/
theorem paused_tick_state_frame (m : StrategyManager)
    (price atr now : ℚ) (ov : Overrides) (amt : Option ℚ)
    (active : List Trade) (port : Option Portfolio) (id : String)
    (h : (m.evaluate_hybrid price atr now ov amt active port id).1.risk_pause
      = true) :
    (m.evaluate_hybrid price atr now ov amt active port id).2.1
      = { m with risk_alert_sent := true } := by
  have hp : (checkPortfolioRisk m.max_drawdown_pct port price).1 = true := by
    rw [← evaluate_hybrid_risk_pause m price atr now ov amt active port id]
    exact h
  rw [evaluate_hybrid_paused_eq m price atr now ov amt active port id hp]
  rfl

/-- C6 witness: the amended theorem applied to `m100` on a paused tick at
price 96. -/
theorem paused_tick_state_frame_witness :
    (m100.evaluate_hybrid 96 0 0 ⟨false, none⟩ none []
        (some bustPortfolio) "id").2.1
      = { m100 with risk_alert_sent := true } :=
  paused_tick_state_frame m100 96 0 0 ⟨false, none⟩ none []
    (some bustPortfolio) "id"
    (by rw [evaluate_hybrid_paused_eq m100 96 0 0 ⟨false, none⟩ none []
        (some bustPortfolio) "id" (bust_paused 96)]
        rfl)

/-- C5 counterexample.  Two consecutive `evaluate_hybrid` calls with
*identical* inputs (price 96, no intervening commit) on a manager whose
tracked previous price is 100: the first call's DCA decision is a buy (4%
drop ≥ 3%), but the first call moves the tracked previous price to 96, so the
second call sees a 0% drop and holds — the two decision bundles differ. -/
theorem idempotent_eval_counterexample :
    (m100.evaluate_hybrid 96 0 0 ⟨false, none⟩ none [] none "a").1.dca.should_buy
      = true ∧
    ((m100.evaluate_hybrid 96 0 0 ⟨false, none⟩ none [] none
        "a").2.1.evaluate_hybrid 96 0 0 ⟨false, none⟩ none [] none
        "a").1.dca.should_buy = false ∧
    (m100.evaluate_hybrid 96 0 0 ⟨false, none⟩ none [] none "a").1
      ≠ ((m100.evaluate_hybrid 96 0 0 ⟨false, none⟩ none [] none
          "a").2.1.evaluate_hybrid 96 0 0 ⟨false, none⟩ none [] none "a").1 := by
  have h1 : (m100.evaluate_hybrid 96 0 0 ⟨false, none⟩ none [] none
      "a").1.dca.should_buy = true := by
    rw [evaluate_hybrid_unpaused_eq m100 96 0 0 ⟨false, none⟩ none [] none
      "a" rfl]
    simp [m100, mkStrategyManager, mkDCAStrategy, DCAStrategy.should_buy]
    norm_num
  have h2 : ((m100.evaluate_hybrid 96 0 0 ⟨false, none⟩ none [] none
      "a").2.1.evaluate_hybrid 96 0 0 ⟨false, none⟩ none [] none
      "a").1.dca.should_buy = false := by
    rw [evaluate_hybrid_unpaused_eq m100 96 0 0 ⟨false, none⟩ none [] none
      "a" rfl]
    rw [evaluate_hybrid_unpaused_eq _ 96 0 0 ⟨false, none⟩ none [] none
      "a" rfl]
    simp [m100, mkStrategyManager, mkDCAStrategy, DCAStrategy.should_buy]
    norm_num
  refine ⟨h1, h2, fun heq => ?_⟩
  rw [heq, h2] at h1
  exact Bool.false_ne_true h1

/-- C5 (amended): `evaluate_hybrid` is a deterministic function of the engine
state and its inputs (the fresh trade id being an input), and evaluation
leaves the durable active set untouched; however, the first call's
previous-price update feeds the second call, so two consecutive calls with
identical inputs and no intervening commit are not idempotent in general —
they do return identical decision bundles whenever the tracked previous
price already equals the evaluated price (then the update is a no-op and the
bundles coincide, fresh id included, since the id is caller-supplied; this
condition is sufficient, not necessary — e.g. on risk-paused ticks the
bundles coincide regardless, the paused result being independent of the
tracked price). -/
theorem evaluate_hybrid_repeat_stable (m : StrategyManager)
    (price atr now : ℚ) (ov : Overrides) (amt : Option ℚ)
    (active : List Trade) (port : Option Portfolio) (id : String)
    (h : m.last_close_price = some price) :
    ((m.evaluate_hybrid price atr now ov amt active port id).2.1.evaluate_hybrid
        price atr now ov amt active port id).1
      = (m.evaluate_hybrid price atr now ov amt active port id).1 := by
  by_cases hp : (checkPortfolioRisk m.max_drawdown_pct port price).1 = true
  · rw [evaluate_hybrid_paused_eq m price atr now ov amt active port id hp]
    dsimp only [StrategyManager.pausedReturn]
    rw [evaluate_hybrid_paused_eq { m with risk_alert_sent := true } price atr
      now ov amt active port id hp]
    rfl
  · have hp' : (checkPortfolioRisk m.max_drawdown_pct port price).1 = false := by
      simpa using hp
    rw [evaluate_hybrid_unpaused_eq m price atr now ov amt active port id hp']
    dsimp only
    rw [evaluate_hybrid_unpaused_eq
      { m with risk_alert_sent := false, last_close_price := some price }
      price atr now ov amt active port id hp']
    rw [h]
    rfl

/-- C5 witness: the amended theorem applied to a manager already at price 96
(tracked previous price 96), on two identical calls at price 96. -/
theorem evaluate_hybrid_repeat_stable_witness :
    (({ m100 with last_close_price := some 96 }.evaluate_hybrid 96 0 0
        ⟨false, none⟩ none [] none "a").2.1.evaluate_hybrid 96 0 0
        ⟨false, none⟩ none [] none "a").1
      = ({ m100 with last_close_price := some 96 }.evaluate_hybrid 96 0 0
        ⟨false, none⟩ none [] none "a").1 :=
  evaluate_hybrid_repeat_stable { m100 with last_close_price := some 96 }
    96 0 0 ⟨false, none⟩ none [] none "a" rfl

/-- `should_buy` evaluated with `previous_price = current_price` (the
first-tick situation, where the orchestrator defaults the previous price to
the current one): for a positive price, an affordable buy amount, no prior
purchase and a positive drop threshold, the answer is a hold with the
"drop 0% below threshold" reason. -/
lemma should_buy_self_price (s : DCAStrategy) (price t : ℚ)
    (hp : 0 < price) (hb : s.total_spent + s.dca_amount_usd ≤ s.budget_usd)
    (hnolast : s.last_purchase_time = none) (hdp : 0 < s.drop_percent) :
    s.should_buy price price t
      = ⟨false, .dropBelow 0 s.drop_percent, none, none⟩ := by
  have hdrop : (price - price) / price * 100 = (0 : ℚ) := by
    rw [sub_self, zero_div, zero_mul]
  simp only [DCAStrategy.should_buy, hnolast, Option.map_none', hdrop]
  rw [if_neg (not_le.mpr hp), if_neg (not_lt.mpr hb)]
  simp only [Bool.false_eq_true, if_false]
  rw [if_neg (not_le.mpr hdp)]

/-- C7 counterexample.  On the first tick of a fresh manager (price 100, no
portfolio file, 3% threshold) the DCA decision is a hold, but its reason is
"Price drop 0.00% below threshold 3%", not "No previous price data": `step`
and `evaluate_hybrid` default the missing previous price to the current
price, so the `previous_price ≤ 0` branch never fires on the first tick. -/
theorem first_tick_reason_counterexample :
    ((mkStrategyManager 10000 500 3 24 25 "hybrid").evaluate_hybrid 100 0 0
        ⟨false, none⟩ none [] none "id").1.dca.should_buy = false ∧
    ((mkStrategyManager 10000 500 3 24 25 "hybrid").evaluate_hybrid 100 0 0
        ⟨false, none⟩ none [] none "id").1.dca.reason
      = DCAReason.dropBelow 0 3 ∧
    DCAReason.dropBelow 0 3 ≠ DCAReason.noPreviousPrice := by
  rw [evaluate_hybrid_unpaused_eq (mkStrategyManager 10000 500 3 24 25 "hybrid")
    100 0 0 ⟨false, none⟩ none [] none "id" rfl]
  dsimp only
  rw [show (mkStrategyManager 10000 500 3 24 25 "hybrid").dca.should_buy 100
      ((mkStrategyManager 10000 500 3 24 25 "hybrid").last_close_price.getD 100)
      0 = (mkDCAStrategy 10000 500 3 24).should_buy 100 100 0 from rfl]
  rw [should_buy_self_price _ 100 0 (by norm_num)
    (by norm_num [mkDCAStrategy]) rfl (by norm_num [mkDCAStrategy])]
  exact ⟨rfl, rfl, by simp⟩

/-- C7 (amended): on the first tick of a fresh `StrategyManager` (no previous
price observed, no portfolio file), for any positive price, positive drop
threshold and affordable buy amount, the `dca` field of the `evaluate_hybrid`
result is `should_buy = false` with the "price drop 0% below threshold"
reason — the previous price defaults to the current price, so the
"no previous price" branch (which fires only when the supplied
`previous_price ≤ 0`) is not the branch taken. -/
theorem first_tick_fails_closed (budget amount dp mi maxDD price atr now : ℚ)
    (mode id : String) (ov : Overrides) (amt : Option ℚ) (active : List Trade)
    (hprice : 0 < price) (hdp : 0 < dp) (hamt : amount ≤ budget) :
    ((mkStrategyManager budget amount dp mi maxDD mode).evaluate_hybrid price
        atr now ov amt active none id).1.dca
      = ⟨false, DCAReason.dropBelow 0 dp, none, none⟩ := by
  rw [evaluate_hybrid_unpaused_eq (mkStrategyManager budget amount dp mi maxDD
    mode) price atr now ov amt active none id rfl]
  dsimp only
  rw [show (mkStrategyManager budget amount dp mi maxDD mode).dca.should_buy
      price ((mkStrategyManager budget amount dp mi maxDD
        mode).last_close_price.getD price) now
      = (mkDCAStrategy budget amount dp mi).should_buy price price now from rfl]
  rw [should_buy_self_price _ price now hprice
    (by simpa [mkDCAStrategy] using hamt) rfl
    (by simpa [mkDCAStrategy] using hdp)]
  rfl

/-- C7 witness: the amended theorem applied to the spec's scenario 1 — fresh
manager, budget 10000, amount 500, drop 3%, tick 1 at price 100. -/
theorem first_tick_fails_closed_witness :
    ((mkStrategyManager 10000 500 3 24 25 "hybrid").evaluate_hybrid 100 50 0
        ⟨false, none⟩ none [] none "w").1.dca
      = ⟨false, DCAReason.dropBelow 0 3, none, none⟩ :=
  first_tick_fails_closed 10000 500 3 24 25 100 50 0 "hybrid" "w"
    ⟨false, none⟩ none [] (by norm_num) (by norm_num) (by norm_num)

/-- If the price did not fall tick-over-tick, the DCA rule holds: every
branch of `should_buy` other than the buy branch answers `false`, and the buy
branch needs `drop_percent ≤ price_drop` with `price_drop ≤ 0 <
drop_percent`. -/
lemma should_buy_false_of_no_drop {s : DCAStrategy} {cur prev t : ℚ}
    (hd : 0 < s.drop_percent) (hle : prev ≤ cur) :
    (s.should_buy cur prev t).should_buy = false := by
  by_cases hp0 : prev ≤ 0
  · simp only [DCAStrategy.should_buy, if_pos hp0]
  · have hprev : 0 < prev := lt_of_not_ge hp0
    have h1 : (prev - cur) / prev ≤ 0 :=
      div_nonpos_iff.mpr (Or.inr ⟨by linarith, le_of_lt hprev⟩)
    have h2 : (prev - cur) / prev * 100 ≤ 0 := by nlinarith
    have h3 : ¬ (s.drop_percent ≤ (prev - cur) / prev * 100) := by linarith
    simp only [DCAStrategy.should_buy, if_neg hp0, if_neg h3]
    split
    · rfl
    · split
      · rfl
      · rfl

/-- Stop-loss settlement does nothing when the ledger holds no btc: the sale
guard `0 < qty ∧ qty ≤ btc` can never hold with `btc = 0`. -/
lemma execClosures_zero_btc (time price : ℚ) (l : List Trade) :
    ∀ acc : BTState, acc.btc = 0 → execClosures time price l acc = acc := by
  induction l with
  | nil => intro acc _; rfl
  | cons tr rest ih =>
    intro acc h
    have hcond : ¬ (0 < tr.btc_amount ∧ tr.btc_amount ≤ acc.btc) := by
      rintro ⟨h1, h2⟩
      rw [h] at h2
      linarith
    simp only [execClosures, List.foldl_cons, if_neg hcond]
    exact ih acc h

/-- With swing trading disabled by override, no swing is ever proposed. -/
lemma proposeSwingOpen_disabled (m : StrategyManager)
    (price atr now : ℚ) (ov : Overrides) (amt : Option ℚ)
    (active : List Trade) (id : String) (hsw : ov.enable_swing = false) :
    proposeSwingOpen m price atr now ov amt active id = none := by
  simp [proposeSwingOpen, hsw]

/-- One backtest step over a bar whose close is at or above the tracked
previous price, with swing disabled, a positive drop threshold and an empty
btc ledger, trades nothing: cash, btc and the trade log are unchanged, the
DCA substate is untouched, and the tracked previous price either advances to
this bar's close or (on a risk-paused tick) stays what it was. -/
lemma btStep_no_trade (B : ℚ) (mode : String) (ov : Overrides)
    (cfg : DcaConfig) (st : BTState) (bar : Bar)
    (hsw : ov.enable_swing = false)
    (hbtc : st.btc = 0)
    (hdp : 0 < st.manager.dca.drop_percent)
    (hprev : ∀ q, st.manager.last_close_price = some q → q ≤ bar.close) :
    (btStep B mode ov cfg st bar).cash = st.cash ∧
    (btStep B mode ov cfg st bar).btc = 0 ∧
    (btStep B mode ov cfg st bar).trades = st.trades ∧
    (btStep B mode ov cfg st bar).manager.dca = st.manager.dca ∧
    ((btStep B mode ov cfg st bar).manager.last_close_price = some bar.close ∨
      (btStep B mode ov cfg st bar).manager.last_close_price
        = st.manager.last_close_price) := by
  by_cases hp : (checkPortfolioRisk st.manager.max_drawdown_pct bar.port
      bar.close).1 = true
  · simp only [btStep, evaluate_hybrid_paused_eq st.manager bar.close bar.atr
      bar.time ov (some cfg.dca_amount_usd) bar.active bar.port bar.freshId hp,
      StrategyManager.pausedReturn]
    simp only [Bool.not_true, Bool.false_and, Bool.and_false, if_false,
      execClosures]
    exact ⟨rfl, hbtc, rfl, rfl, Or.inr rfl⟩
  · have hp' : (checkPortfolioRisk st.manager.max_drawdown_pct bar.port
        bar.close).1 = false := by simpa using hp
    have hdca : (st.manager.dca.should_buy bar.close
        (st.manager.last_close_price.getD bar.close) bar.time).should_buy
        = false := by
      apply should_buy_false_of_no_drop hdp
      cases hlc : st.manager.last_close_price with
      | none => simp
      | some q => simpa using hprev q hlc
    simp only [btStep, evaluate_hybrid_unpaused_eq st.manager bar.close bar.atr
      bar.time ov (some cfg.dca_amount_usd) bar.active bar.port bar.freshId hp',
      proposeSwingOpen_disabled st.manager bar.close bar.atr bar.time ov
        (some cfg.dca_amount_usd) bar.active bar.freshId hsw]
    simp only [hdca, Bool.not_false, Bool.and_false, if_false, Bool.true_and,
      Bool.false_and]
    rw [execClosures_zero_btc]
    · have hguard : ((mode == "hybrid") && !false) = (mode == "hybrid") := by
        simp
      constructor
      · split <;> rfl
      · refine ⟨?_, ?_, ?_, ?_⟩ <;> split <;> simp [hbtc]
    · split <;> simp [hbtc]

/-- Folding backtest steps over bars with non-decreasing closes, swing
disabled, a positive drop threshold, an empty btc ledger and a compatible
previous price trades nothing: cash, btc and the trade log come out as they
went in. -/
lemma btFold_no_trades (B : ℚ) (mode : String) (ov : Overrides)
    (cfg : DcaConfig) (hsw : ov.enable_swing = false) :
    ∀ (bars : List Bar) (st : BTState),
      List.Pairwise (fun a b => a ≤ b) (bars.map Bar.close) →
      st.btc = 0 →
      0 < st.manager.dca.drop_percent →
      (∀ q, st.manager.last_close_price = some q → ∀ b ∈ bars, q ≤ b.close) →
      (bars.foldl (btStep B mode ov cfg) st).cash = st.cash ∧
      (bars.foldl (btStep B mode ov cfg) st).btc = 0 ∧
      (bars.foldl (btStep B mode ov cfg) st).trades = st.trades := by
  intro bars
  induction bars with
  | nil => intro st _ hbtc _ _; exact ⟨rfl, hbtc, rfl⟩
  | cons bar rest ih =>
    intro st hpw hbtc hdp hprev
    simp only [List.map_cons, List.pairwise_cons] at hpw
    obtain ⟨hhead, htail⟩ := hpw
    obtain ⟨hc, hb, ht, hdca, hlast⟩ := btStep_no_trade B mode ov cfg st bar
      hsw hbtc hdp (fun q hq => hprev q hq bar (List.mem_cons_self _ _))
    simp only [List.foldl_cons]
    have hnext : ∀ q, (btStep B mode ov cfg st bar).manager.last_close_price
        = some q → ∀ b ∈ rest, q ≤ b.close := by
      intro q hq b hbmem
      rcases hlast with h1 | h2
      · rw [h1] at hq
        cases hq
        exact hhead b.close (List.mem_map_of_mem Bar.close hbmem)
      · rw [h2] at hq
        exact hprev q hq b (List.mem_cons_of_mem _ hbmem)
    obtain ⟨rc, rb, rt⟩ := ih (btStep B mode ov cfg st bar) htail hb
      (by rw [hdca]; exact hdp) hnext
    exact ⟨by rw [rc, hc], rb, by rw [rt, ht]⟩

/-- C8: over any non-empty series of bars whose closes never fall
tick-over-tick, with a positive DCA drop threshold and swing trading not
enabled by overrides, the backtest triggers zero DCA trades (indeed zero
trades of any kind), ends with final portfolio value equal to the initial
budget, and reports `total_return_pct = 0`. -/
theorem backtest_rising_no_trades (B maxDD : ℚ) (mode : String)
    (bars : List Bar) (cfg : DcaConfig) (ov : Overrides)
    (hne : bars ≠ [])
    (hmono : List.Chain' (fun a b => a ≤ b) (bars.map Bar.close))
    (hdp : 0 < cfg.dca_drop_percent)
    (hsw : ov.enable_swing = false) :
    (runBacktest B maxDD mode bars cfg ov).map
        (fun res => (res.dca_trades, res.total_trades, res.final_value,
          res.total_return_pct))
      = some (0, 0, B, 0) := by
  obtain ⟨bar, rest, rfl⟩ := List.exists_cons_of_ne_nil hne
  have hpw : List.Pairwise (fun a b => a ≤ b) ((bar :: rest).map Bar.close) :=
    List.chain'_iff_pairwise.mp hmono
  obtain ⟨rc, rb, rt⟩ := btFold_no_trades B mode ov cfg hsw (bar :: rest)
    ⟨B, 0, [], mkStrategyManager B cfg.dca_amount_usd cfg.dca_drop_percent
      cfg.min_interval_hours maxDD mode, []⟩
    hpw rfl (by simpa [mkStrategyManager, mkDCAStrategy] using hdp)
    (fun q hq => by simp [mkStrategyManager] at hq)
  simp only [runBacktest, Option.map_some']
  rw [rt, rc, rb]
  simp

/-- The spec's scenario-5 series: ten bars with monotonically rising closes
100‥109 (no ATR, live files absent). -/
def sampleRisingBars : List Bar :=
  [⟨100, 0, 0, [], none, "w0"⟩, ⟨101, 0, 1, [], none, "w1"⟩,
   ⟨102, 0, 2, [], none, "w2"⟩, ⟨103, 0, 3, [], none, "w3"⟩,
   ⟨104, 0, 4, [], none, "w4"⟩, ⟨105, 0, 5, [], none, "w5"⟩,
   ⟨106, 0, 6, [], none, "w6"⟩, ⟨107, 0, 7, [], none, "w7"⟩,
   ⟨108, 0, 8, [], none, "w8"⟩, ⟨109, 0, 9, [], none, "w9"⟩]

/-- C8 witness: the theorem applied to the ten-bar rising series with budget
10000, DCA drop 3%, swing disabled. -/
theorem backtest_rising_no_trades_witness :
    (runBacktest 10000 25 "hybrid" sampleRisingBars ⟨500, 3, 24⟩
        ⟨false, none⟩).map
        (fun res => (res.dca_trades, res.total_trades, res.final_value,
          res.total_return_pct))
      = some (0, 0, 10000, 0) :=
  backtest_rising_no_trades 10000 25 "hybrid" sampleRisingBars ⟨500, 3, 24⟩
    ⟨false, none⟩ (by simp [sampleRisingBars])
    (by simp [sampleRisingBars, List.chain'_cons]; norm_num)
    (by norm_num) rfl

/-- C9: reads of the durable active-trade set fail open to the empty set —
a missing file, an open/parse failure, and a file parsing to JSON `null` all
yield `[]` rather than raising — while a failing write propagates to the
caller as an error from `_save_active_trades` (there is no handler around the
write), both directly and through `record_swing_open`; a successful write
persists exactly the given list. -/
theorem persistence_failure_handling :
    loadActiveTrades .missing = [] ∧
    loadActiveTrades .readFailure = [] ∧
    loadActiveTrades .parsedNull = [] ∧
    (∀ (ts : List Trade) (msg : String),
      saveActiveTrades ts (.ioFailure msg) = .error msg) ∧
    (∀ (file : ActiveTradesFile) (t : Trade) (msg : String),
      recordSwingOpen file t (.ioFailure msg) = .error msg) ∧
    (∀ ts : List Trade, saveActiveTrades ts .ok = .ok ts) :=
  ⟨rfl, rfl, rfl, fun _ _ => rfl, fun _ _ _ => rfl, fun _ => rfl⟩

/-- C10: `record_swing_open(t)` over a persisted set `S` (with the write
succeeding) persists exactly `S` with one appended entry — equal to `t` in
every field except `status`, which is overwritten with `"open"` whatever it
was (`"pending"` included).  The statement quantifies over *all* `S`, so the
append is unconditional: no check that `S` holds no other `"open"` entry is
performed. -/
theorem record_swing_open_appends (S : List Trade) (t : Trade) :
    recordSwingOpen (.parsed S) t .ok
      = .ok (S ++ [⟨t.trade_id, t.entry_price, t.stop_loss, t.amount_usd,
          t.btc_amount, t.atr_value, t.atr_k, t.entry_time, "open",
          t.trade_type⟩]) :=
  rfl
